import Mathlib

/-!
Verification of the netsignal repository: a cross-platform network-status
wrapper exposing `isConnected`, `getType`, an asynchronous endpoint probe,
and change subscriptions, backed by browser and mobile-OS connectivity APIs.

The embedding below translates the relevant source functions into pure Lean
functions.  Platform primitives (the WHATWG `new URL` parser, `fetch`,
`Date.now`, the OS network callbacks) are modelled as oracle inputs: each
probe performs at most one network request, so the outcome of that single
request is a parameter, and the list of requests actually issued is returned
explicitly, which makes claims about "exactly one HEAD request" or "no fetch
on validation failure" statable.

JavaScript numbers are modelled as `ℚ` (every value arising here is an exact
decimal), JS strings as `String`, nullable values as `Option`, a function
that can throw as `Except` (a `.error` value is a thrown exception and a
rejected promise; a plain value or `.ok` is a resolved promise).
-/

/-- Connection quality enumeration from src/types.ts (`NetworkQuality`). -/
inductive NetworkQuality
  | excellent
  | good
  | fair
  | poor
  | unknown
deriving DecidableEq, Repr

/-- Result of a probe, from src/types.ts (`ProbeResult`): `reachable`,
`responseTime` (milliseconds, `-1` on failure) and an optional error string. -/
structure ProbeResult where
  reachable : Bool
  responseTime : ℚ
  error : Option String
deriving DecidableEq, Repr

/-- A JavaScript exception value, as observed by the `catch` blocks of the
probe implementations: only its `name` and `message` are consulted. -/
structure JSError where
  name : String
  message : String
deriving DecidableEq, Repr

/-- The part of a parsed WHATWG `URL` object the sources consult. -/
structure URLObj where
  protocol : String
deriving DecidableEq, Repr

/-- Outcome of the single `fetch` call a probe may make: either a response
(of which only `response.ok` is consulted) or a thrown error. -/
inductive FetchOutcome
  | success (ok : Bool)
  | failure (e : JSError)
deriving DecidableEq, Repr

/-- A record of one HTTP request issued through `fetch`: the url, the HTTP
method, and the timeout (in ms) armed on the AbortController timer racing
that request. -/
structure FetchRequest where
  url : String
  method : String
  timeoutMs : ℚ
deriving DecidableEq, Repr

/-- Oracle bundle for one probe call: the platform URL parser (`new URL`),
the outcome the single `fetch` would have, and the elapsed wall-clock
milliseconds (`Date.now() - start`) observed when that fetch settles. -/
structure ProbeEnv where
  parseURL : String → Option URLObj
  fetchResult : FetchOutcome
  elapsed : ℚ

/-- Cached status pair of the web implementations (`this.state` in
src/implementations/web.ts, `this.webState` in src/index.ts).  The TypeScript
declaration gives `type` the five-valued `ConnectionType`, but at runtime the
field holds whatever string is assigned to it, so it is modelled as `String`. -/
structure WebState where
  isConnected : Bool
  type : String
deriving DecidableEq, Repr

/-- The five strings of the `ConnectionType` enumeration declared in
src/types.ts and src/index.ts. -/
def ConnectionTypeStrings : List String :=
  ["wifi", "cellular", "ethernet", "none", "unknown"]

/-- WebNetSignal.probe from src/implementations/web.ts lines 43-97:
validates the url (parse, then protocol) and the timeout, then performs one
HEAD fetch racing an AbortController timer; every outcome is returned as a
`ProbeResult`, never thrown.  The second component is the list of fetch
requests issued. -/
def WebNetSignal.probe (env : ProbeEnv) (url : String) (timeoutMs : ℚ) :
    ProbeResult × List FetchRequest :=
  match env.parseURL url with
  | none => (⟨false, -1, some "Invalid URL format"⟩, [])
  | some urlObj =>
    if ¬(urlObj.protocol = "http:" ∨ urlObj.protocol = "https:") then
      (⟨false, -1, some "Invalid protocol. Only HTTP/HTTPS are supported"⟩, [])
    else if timeoutMs ≤ 0 ∨ timeoutMs > 60000 then
      (⟨false, -1, some "Timeout must be between 1ms and 60000ms"⟩, [])
    else
      match env.fetchResult with
      | .success ok => (⟨ok, env.elapsed, none⟩, [⟨url, "HEAD", timeoutMs⟩])
      | .failure e =>
        (⟨false, -1,
          some (if e.name = "AbortError" then "Request timeout" else e.message)⟩,
         [⟨url, "HEAD", timeoutMs⟩])

/-- WebNetSignal.probe as a method on the instance state: the method body in
src/implementations/web.ts contains no write to `this.state`, so the
explicit-state embedding threads the state through unchanged. -/
def WebNetSignal.probeM (st : WebState) (env : ProbeEnv) (url : String)
    (timeoutMs : ℚ) : WebState × ProbeResult × List FetchRequest :=
  (st, WebNetSignal.probe env url timeoutMs)

/-- NetSignalImpl.probeWeb from src/index.ts lines 181-208: performs the
HEAD fetch with the AbortController timer directly, with no url or timeout
validation, and returns the raw `error.message` on any thrown error. -/
def NetSignalImpl.probeWeb (env : ProbeEnv) (url : String) (timeoutMs : ℚ) :
    ProbeResult × List FetchRequest :=
  match env.fetchResult with
  | .success ok => (⟨ok, env.elapsed, none⟩, [⟨url, "HEAD", timeoutMs⟩])
  | .failure e => (⟨false, -1, some e.message⟩, [⟨url, "HEAD", timeoutMs⟩])

/-- Typed error classes of src/errors.ts, thrown by NativeNetSignal.probe. -/
inductive NetSignalError
  | nativeModuleError (platform : String)
  | invalidURLError (url : String) (reason : Option String)
  | invalidTimeoutError (timeoutMs : ℚ)
  | networkRequestError (url : String) (message : String)
deriving DecidableEq, Repr

/-- NativeNetSignal.probe from src/implementations/native.ts lines 35-63.
`native` is the platform module if available, carrying the outcome of its
`probe` promise.  Every failure is a thrown typed error (`Except.error`):
missing module, unparsable url, non-HTTP(S) protocol, out-of-range timeout,
or a rejection of the native probe (rewrapped as NetworkRequestError). -/
def NativeNetSignal.probe (platform : String)
    (native : Option (Except JSError ProbeResult))
    (parseURL : String → Option URLObj)
    (url : String) (timeoutMs : ℚ) : Except NetSignalError ProbeResult :=
  match native with
  | none => .error (.nativeModuleError platform)
  | some nativeOutcome =>
    match parseURL url with
    | none => .error (.invalidURLError url none)
    | some urlObj =>
      if ¬(urlObj.protocol = "http:" ∨ urlObj.protocol = "https:") then
        .error (.invalidURLError url (some "Only HTTP/HTTPS protocols are supported"))
      else if timeoutMs ≤ 0 ∨ timeoutMs > 60000 then
        .error (.invalidTimeoutError timeoutMs)
      else
        match nativeOutcome with
        | .ok r => .ok r
        | .error e => .error (.networkRequestError url e.message)

/-- NetSignalImpl.probe from src/index.ts lines 90-104 (universal entry):
on web it delegates to probeWeb; otherwise a missing native module resolves
to the "Not supported" result, and a rejection of the native probe is caught
and resolved as a failure result. -/
def NetSignalImpl.probe (isWeb : Bool)
    (native : Option (Except JSError ProbeResult))
    (env : ProbeEnv) (url : String) (timeoutMs : ℚ) : ProbeResult :=
  if isWeb then (NetSignalImpl.probeWeb env url timeoutMs).1
  else
    match native with
    | none => ⟨false, -1, some "Not supported"⟩
    | some (.ok r) => r
    | some (.error e) => ⟨false, -1, some e.message⟩

/-- A request issued by the iOS probe (ios/NetSignal.mm): an NSURLRequest
with its HTTP method and `timeoutInterval` (seconds). -/
structure IosRequest where
  urlString : String
  httpMethod : String
  timeoutIntervalSec : ℚ
deriving DecidableEq, Repr

/-- Outcome of the single NSURLSession data task of the iOS probe: a
transport error (with its localized description) or an HTTP response whose
status code is consulted. -/
inductive IosCompletion
  | failure (localizedDescription : String)
  | response (statusCode : Int)
deriving DecidableEq, Repr

/-- The probe method of ios/NetSignal.mm lines 91-136: builds one HEAD
request with `timeoutInterval = timeoutMs / 1000`, runs one data task, and
always resolves the promise with a result dictionary; `reachable` is true
for status codes in [200, 400).  The second component lists the requests
issued (always exactly the one). -/
def IosNetSignal.probe (urlString : String) (timeoutMs : ℚ)
    (completion : IosCompletion) (responseTimeMs : ℚ) :
    ProbeResult × List IosRequest :=
  let req : IosRequest := ⟨urlString, "HEAD", timeoutMs / 1000⟩
  match completion with
  | .failure desc => (⟨false, -1, some desc⟩, [req])
  | .response status =>
    (⟨decide (200 ≤ status ∧ status < 400), responseTimeMs, none⟩, [req])

/-- The slice of the browser Network Information API object the sources
consult (`navigator.connection`). -/
structure ConnInfo where
  type : Option String
  effectiveType : Option String
deriving DecidableEq, Repr

/-- The slice of the browser `navigator` object the sources consult. -/
structure WebNav where
  onLine : Bool
  connection : Option ConnInfo
deriving DecidableEq, Repr

/-- JavaScript truthiness of an optional string (`undefined` and the empty
string are falsy). -/
def truthy : Option String → Bool
  | some s => s != ""
  | none => false

/-- WebNetSignal.updateState from src/implementations/web.ts lines 158-174
(NetSignalImpl.updateWebState in src/index.ts is the same code): copies
`navigator.onLine` into the cache; when online, copies the RAW
`connection.type` string when truthy, else classifies `effectiveType`
(containing the letter g means cellular, otherwise wifi), else `unknown`;
when offline the type is `none`.  Both fields are overwritten, so the
previous state is not consulted. -/
def WebNetSignal.updateState (nav : WebNav) : WebState :=
  if nav.onLine = false then ⟨nav.onLine, "none"⟩
  else
    match nav.connection with
    | some conn =>
      if truthy conn.type then ⟨nav.onLine, conn.type.getD ""⟩
      else if truthy conn.effectiveType then
        ⟨nav.onLine,
         if (conn.effectiveType.getD "").contains 'g' then "cellular" else "wifi"⟩
      else ⟨nav.onLine, "unknown"⟩
    | none => ⟨nav.onLine, "unknown"⟩

/-- WebNetSignal.getType from src/implementations/web.ts: returns the cached
type string. -/
def WebNetSignal.getType (st : WebState) : String :=
  st.type

/-- What the platform-native module exposes to the synchronous getters:
its cached connection flag and type string. -/
structure NativeModuleState where
  isConnected : Bool
  connectionType : String
deriving DecidableEq, Repr

/-- NativeNetSignal.isConnected from src/implementations/native.ts line
27-29: `this.native?.isConnected() ?? false`. -/
def NativeNetSignal.isConnected (native : Option NativeModuleState) : Bool :=
  match native with
  | some m => m.isConnected
  | none => false

/-- NativeNetSignal.getType from src/implementations/native.ts lines 31-33:
`this.native?.getConnectionType() ?? 'unknown'`. -/
def NativeNetSignal.getType (native : Option NativeModuleState) : String :=
  match native with
  | some m => m.connectionType
  | none => "unknown"

/-- NetSignalImpl.isConnected from src/index.ts lines 70-75: the web cache
on web, otherwise `this.native?.isConnected() ?? false`. -/
def NetSignalImpl.isConnected (isWeb : Bool) (webState : WebState)
    (native : Option NativeModuleState) : Bool :=
  if isWeb then webState.isConnected
  else
    match native with
    | some m => m.isConnected
    | none => false

/-- NetSignalImpl.getType from src/index.ts lines 80-85: the web cache on
web, otherwise `this.native?.getConnectionType() ?? 'unknown'`. -/
def NetSignalImpl.getType (isWeb : Bool) (webState : WebState)
    (native : Option NativeModuleState) : String :=
  if isWeb then webState.type
  else
    match native with
    | some m => m.connectionType
    | none => "unknown"

/-- Status of an nw_path as consulted by ios/NetSignal.mm. -/
inductive NWPathStatus
  | invalid
  | satisfied
  | unsatisfied
  | satisfiable
deriving DecidableEq, Repr

/-- The slice of an nw_path the iOS update handler consults. -/
structure NWPath where
  status : NWPathStatus
  usesWifi : Bool
  usesCellular : Bool
  usesWired : Bool
deriving DecidableEq, Repr

/-- Cached status pair of the iOS module (`_isConnected`, `_connectionType`). -/
structure IosState where
  isConnected : Bool
  connectionType : String
deriving DecidableEq, Repr

/-- updateConnectionState from ios/NetSignal.mm lines 46-67: connected iff
the path status is satisfied; when connected the type is chosen by interface
(wifi, then cellular, then wired as ethernet, else unknown); when not
connected the type is `none`. -/
def IosNetSignal.updateConnectionState (path : NWPath) : IosState :=
  if path.status = NWPathStatus.satisfied then
    ⟨true,
     if path.usesWifi then "wifi"
     else if path.usesCellular then "cellular"
     else if path.usesWired then "ethernet"
     else "unknown"⟩
  else ⟨false, "none"⟩

/-- The slice of Android NetworkCapabilities the module consults. -/
structure NetCaps where
  hasInternet : Bool
  hasWifi : Bool
  hasCellular : Bool
  hasEthernet : Bool
deriving DecidableEq, Repr

/-- Cached status pair of the Android module (`connected`, `type`). -/
structure AndroidState where
  connected : Bool
  type : String
deriving DecidableEq, Repr

/-- NetSignalModule.updateState from
android/src/main/java/com/netsignal/NetSignalModule.java lines 86-107: on
SDK ≥ 23 (Build.VERSION_CODES.M) the capabilities of the active network
decide the pair (internet capability with a transport, else disconnected
with type `none`); on older SDKs the method body does nothing and the
previous state stands. -/
def NetSignalModule.updateState (sdkInt : ℕ) (caps : Option NetCaps)
    (prev : AndroidState) : AndroidState :=
  if 23 ≤ sdkInt then
    match caps with
    | some c =>
      if c.hasInternet then
        ⟨true,
         if c.hasWifi then "wifi"
         else if c.hasCellular then "cellular"
         else if c.hasEthernet then "ethernet"
         else "unknown"⟩
      else ⟨false, "none"⟩
    | none => ⟨false, "none"⟩
  else prev

/-- Modelled from the spec: the latency-to-quality threshold table of
`getQualityFromLatency` in src/utils/network-quality.ts, a file absent from
the repository snapshot (only its unit tests, its callers and a snippet in
CONTRIBUTING.md remain).  Thresholds follow the spec's table (below 50 ms
excellent, below 150 ms good, below 300 ms fair, else poor); the guard
returning `unknown` for negative latency follows the repository's own
CONTRIBUTING.md snippet and the unit test asserting
`getQualityFromLatency(-1)` is `'unknown'`. -/
def getQualityFromLatency (latency : ℚ) : NetworkQuality :=
  if latency < 0 then .unknown
  else if latency < 50 then .excellent
  else if latency < 150 then .good
  else if latency < 300 then .fair
  else .poor

/-- JavaScript `Math.round`: round half toward positive infinity, i.e. the
floor of the value plus one half. -/
def jsRound (x : ℚ) : ℤ :=
  ⌊x + 1 / 2⌋

/-- The jitter accumulation loop of checkQuality (src/hooks.ts): the sum of
the absolute differences of consecutive samples, written as the source's
index loop from 1. -/
def jitterSum : List ℚ → ℚ
  | [] => 0
  | [_] => 0
  | a :: b :: rest => |b - a| + jitterSum (b :: rest)

/-- The three reported values of the useNetworkQuality hook state. -/
structure QualityReport where
  quality : NetworkQuality
  latency : Option ℤ
  jitter : Option ℤ
deriving DecidableEq, Repr

/-- checkQuality from the useNetworkQuality hook (src/hooks.ts): given the
latency samples collected from the probes (only reachable probes with a
positive responseTime contribute), reports the rounded arithmetic-mean
latency, the quality of that (unrounded) mean, and - once at least two
samples exist - the rounded mean of the absolute consecutive differences as
jitter; with fewer samples the previous values stand. -/
def useNetworkQuality.checkQuality (samples : List ℚ) (prev : QualityReport) :
    QualityReport :=
  if 0 < samples.length then
    let avgLatency : ℚ := samples.foldl (· + ·) 0 / (samples.length : ℚ)
    ⟨getQualityFromLatency avgLatency,
     some (jsRound avgLatency),
     if 1 < samples.length then
       some (jsRound (jitterSum samples / ((samples.length : ℚ) - 1)))
     else prev.jitter⟩
  else prev

/-! ## Helper lemmas -/

theorem foldl_add_eq_sum (l : List ℚ) : l.foldl (· + ·) 0 = l.sum := by
  rw [List.sum_eq_foldl]

theorem jitterSum_eq_zipWith_sum (l : List ℚ) :
    jitterSum l = (List.zipWith (fun a b => |b - a|) l l.tail).sum := by
  induction l with
  | nil => simp [jitterSum]
  | cons a t ih =>
    cases t with
    | nil => simp [jitterSum]
    | cons b rest =>
      simp only [jitterSum, List.tail_cons, List.zipWith_cons_cons, List.sum_cons]
      rw [ih]
      simp

/-! ## Claim theorems -/

/-- C3 counterexample: the claim states `getQualityFromLatency l` is
`excellent` for every latency below 50 ms (and `poor` for every latency not
covered by the three bands), but at latency `-1` the function returns
`unknown`, as the repository's own unit tests require. -/
theorem getQualityFromLatency_neg_one_unknown :
    getQualityFromLatency (-1) = NetworkQuality.unknown ∧
    NetworkQuality.unknown ≠ NetworkQuality.excellent ∧
    NetworkQuality.unknown ≠ NetworkQuality.poor := by
  refine ⟨?_, by decide, by decide⟩
  unfold getQualityFromLatency
  norm_num

/-- C3 (amended): for every nonnegative latency `l`,
`getQualityFromLatency l` is `excellent` when `l < 50`, `good` when
`50 ≤ l < 150`, `fair` when `150 ≤ l < 300` and `poor` when `300 ≤ l`;
for every negative latency it is `unknown`. -/
theorem getQualityFromLatency_buckets (l : ℚ) :
    (0 ≤ l →
      (l < 50 → getQualityFromLatency l = .excellent) ∧
      (50 ≤ l → l < 150 → getQualityFromLatency l = .good) ∧
      (150 ≤ l → l < 300 → getQualityFromLatency l = .fair) ∧
      (300 ≤ l → getQualityFromLatency l = .poor)) ∧
    (l < 0 → getQualityFromLatency l = .unknown) := by
  unfold getQualityFromLatency
  constructor
  · intro h0
    refine ⟨fun h => ?_, fun h1 h2 => ?_, fun h1 h2 => ?_, fun h => ?_⟩
    · rw [if_neg (by linarith), if_pos h]
    · rw [if_neg (by linarith), if_neg (by linarith), if_pos h2]
    · rw [if_neg (by linarith), if_neg (by linarith), if_neg (by linarith),
        if_pos h2]
    · rw [if_neg (by linarith), if_neg (by linarith), if_neg (by linarith),
        if_neg (by linarith)]
  · intro h
    rw [if_pos h]

/-- C3 witness: the amended bucketing theorem applied at latency 25. -/
theorem getQualityFromLatency_buckets_witness :
    getQualityFromLatency 25 = NetworkQuality.excellent :=
  ((getQualityFromLatency_buckets 25).1 (by norm_num)).1 (by norm_num)

/-- C2 (code bug evaluation): when the browser is online and the Network
Information API reports `connection.type = "bluetooth"` (a legal value of
that API), the web updateState copies the raw string into the cache and
getType() returns `"bluetooth"`, which is outside the five-valued
`ConnectionType` enumeration the same file declares as its return type. -/
theorem web_getType_escapes_enumeration :
    WebNetSignal.getType
        (WebNetSignal.updateState ⟨true, some ⟨some "bluetooth", none⟩⟩) =
      "bluetooth" ∧
    "bluetooth" ∉ ConnectionTypeStrings := by
  decide

/-- C8 counterexample: on the web platform the native module is null
(`NativeModules.NetSignal` does not exist in a browser), yet the universal
entry's isConnected() serves the web cache - here `true` - rather than the
safe default `false`, and getType() serves the cached type rather than
`'unknown'`. -/
theorem universal_isConnected_web_counterexample :
    NetSignalImpl.isConnected true ⟨true, "wifi"⟩ none = true ∧
    NetSignalImpl.getType true ⟨true, "wifi"⟩ none = "wifi" := by
  decide

/-- C8 (amended): whenever the native module is unavailable, the native-only
implementation returns the safe defaults false and `'unknown'`, and so does
the universal entry on every non-web platform; on web the universal entry
serves the cached web state instead. -/
theorem native_missing_safe_defaults (webState : WebState) :
    (NativeNetSignal.isConnected none = false ∧
      NativeNetSignal.getType none = "unknown") ∧
    (NetSignalImpl.isConnected false webState none = false ∧
      NetSignalImpl.getType false webState none = "unknown") := by
  refine ⟨⟨rfl, rfl⟩, ⟨?_, ?_⟩⟩ <;> simp [NetSignalImpl.isConnected, NetSignalImpl.getType]

/-- C8 witness: the amended theorem applied at a concrete web cache. -/
theorem native_missing_safe_defaults_witness :
    NativeNetSignal.isConnected none = false ∧
    NetSignalImpl.getType false ⟨true, "wifi"⟩ none = "unknown" :=
  ⟨(native_missing_safe_defaults ⟨true, "wifi"⟩).1.1,
   (native_missing_safe_defaults ⟨true, "wifi"⟩).2.2⟩

/-- C9: every update of a cached status pair establishes (hence preserves)
the invariant that a disconnected cache reports type `none`: the web
updateState and the iOS updateConnectionState establish it outright for
every input, and the Android updateState preserves it (its pre-M branch is a
no-op, so it needs the invariant on the previous state). -/
theorem updateState_disconnected_type_none :
    (∀ nav : WebNav, (WebNetSignal.updateState nav).isConnected = false →
      (WebNetSignal.updateState nav).type = "none") ∧
    (∀ path : NWPath,
      (IosNetSignal.updateConnectionState path).isConnected = false →
      (IosNetSignal.updateConnectionState path).connectionType = "none") ∧
    (∀ (sdkInt : ℕ) (caps : Option NetCaps) (prev : AndroidState),
      (prev.connected = false → prev.type = "none") →
      (NetSignalModule.updateState sdkInt caps prev).connected = false →
      (NetSignalModule.updateState sdkInt caps prev).type = "none") := by
  refine ⟨fun nav h => ?_, fun path h => ?_, fun sdkInt caps prev hprev h => ?_⟩
  · rcases nav with ⟨onLine, connection⟩
    cases onLine with
    | false => simp [WebNetSignal.updateState]
    | true =>
      exfalso
      rcases connection with _ | conn
      · simp [WebNetSignal.updateState] at h
      · by_cases ht : truthy conn.type = true
        · simp [WebNetSignal.updateState, ht] at h
        · by_cases he : truthy conn.effectiveType = true
          · simp [WebNetSignal.updateState, ht, he] at h
          · simp [WebNetSignal.updateState, ht, he] at h
  · by_cases hs : path.status = NWPathStatus.satisfied
    · simp [IosNetSignal.updateConnectionState, hs] at h
    · simp [IosNetSignal.updateConnectionState, hs]
  · by_cases hsdk : 23 ≤ sdkInt
    · rcases caps with _ | c
      · simp [NetSignalModule.updateState, hsdk]
      · by_cases hi : c.hasInternet = true
        · simp [NetSignalModule.updateState, hsdk, hi] at h
        · simp [NetSignalModule.updateState, hsdk, hi]
    · simp [NetSignalModule.updateState, hsdk] at h ⊢
      exact hprev h

/-- C9 witness: the theorem applied at concrete offline inputs on each
platform. -/
theorem updateState_disconnected_type_none_witness :
    (WebNetSignal.updateState ⟨false, none⟩).type = "none" ∧
    (IosNetSignal.updateConnectionState
      ⟨NWPathStatus.unsatisfied, false, false, false⟩).connectionType = "none" ∧
    (NetSignalModule.updateState 21 none ⟨false, "none"⟩).type = "none" :=
  ⟨updateState_disconnected_type_none.1 ⟨false, none⟩ (by decide),
   updateState_disconnected_type_none.2.1
     ⟨NWPathStatus.unsatisfied, false, false, false⟩ (by decide),
   updateState_disconnected_type_none.2.2 21 none ⟨false, "none"⟩
     (fun _ => rfl) (by decide)⟩

/-- C10: WebNetSignal.probe validates its inputs before any network I/O:
whenever the url does not parse, or its protocol is neither http nor https,
or the timeout is nonpositive or above 60000 ms, the call returns a failure
result (reachable false, responseTime -1, an error string) with an empty
fetch trace, and the cached status is unchanged. -/
theorem web_probe_validates_before_io (st : WebState) (env : ProbeEnv)
    (url : String) (timeoutMs : ℚ)
    (hbad : env.parseURL url = none ∨
      (∃ u, env.parseURL url = some u ∧
        ¬(u.protocol = "http:" ∨ u.protocol = "https:")) ∨
      timeoutMs ≤ 0 ∨ 60000 < timeoutMs) :
    (∃ m, WebNetSignal.probe env url timeoutMs = (⟨false, -1, some m⟩, [])) ∧
    (WebNetSignal.probeM st env url timeoutMs).1 = st := by
  refine ⟨?_, rfl⟩
  unfold WebNetSignal.probe
  rcases hbad with h | ⟨u, hu, hp⟩ | h | h
  · exact ⟨"Invalid URL format", by rw [h]⟩
  · exact ⟨"Invalid protocol. Only HTTP/HTTPS are supported", by
      rw [hu]; dsimp only; rw [if_pos hp]⟩
  · rcases hu : env.parseURL url with _ | u
    · exact ⟨"Invalid URL format", rfl⟩
    · by_cases hp : u.protocol = "http:" ∨ u.protocol = "https:"
      · exact ⟨"Timeout must be between 1ms and 60000ms", by
          dsimp only; rw [if_neg (not_not_intro hp), if_pos (Or.inl h)]⟩
      · exact ⟨"Invalid protocol. Only HTTP/HTTPS are supported", by
          dsimp only; rw [if_pos hp]⟩
  · rcases hu : env.parseURL url with _ | u
    · exact ⟨"Invalid URL format", rfl⟩
    · by_cases hp : u.protocol = "http:" ∨ u.protocol = "https:"
      · exact ⟨"Timeout must be between 1ms and 60000ms", by
          dsimp only; rw [if_neg (not_not_intro hp), if_pos (Or.inr h)]⟩
      · exact ⟨"Invalid protocol. Only HTTP/HTTPS are supported", by
          dsimp only; rw [if_pos hp]⟩

/-- C10 witness: a url the parser rejects yields a failure result with no
fetch and an unchanged cache. -/
theorem web_probe_validates_before_io_witness :
    (∃ m, WebNetSignal.probe ⟨fun _ => none, .success true, 3⟩ "not a url"
      5000 = (⟨false, -1, some m⟩, [])) ∧
    (WebNetSignal.probeM ⟨true, "wifi"⟩ ⟨fun _ => none, .success true, 3⟩
      "not a url" 5000).1 = ⟨true, "wifi"⟩ :=
  web_probe_validates_before_io ⟨true, "wifi"⟩
    ⟨fun _ => none, .success true, 3⟩ "not a url" 5000 (Or.inl rfl)

/-- C5: with a valid HTTP/HTTPS url and an in-range timeout the web probe
issues exactly one HEAD request armed with the given timeout; on every
input whatsoever the web probe issues at most one request (so it never
retries on its own); and the iOS probe issues exactly one HEAD request with
the given timeout (converted to seconds) on every input. -/
theorem probe_single_head_request (env : ProbeEnv) (url : String)
    (timeoutMs : ℚ) (u : URLObj) (hu : env.parseURL url = some u)
    (hp : u.protocol = "http:" ∨ u.protocol = "https:")
    (ht0 : 0 < timeoutMs) (ht1 : timeoutMs ≤ 60000) :
    (WebNetSignal.probe env url timeoutMs).2 = [⟨url, "HEAD", timeoutMs⟩] ∧
    (∀ (env2 : ProbeEnv) (url2 : String) (t2 : ℚ),
      ((WebNetSignal.probe env2 url2 t2).2).length ≤ 1) ∧
    (∀ (completion : IosCompletion) (rt : ℚ),
      (IosNetSignal.probe url timeoutMs completion rt).2 =
        [⟨url, "HEAD", timeoutMs / 1000⟩]) := by
  refine ⟨?_, ?_, ?_⟩
  · unfold WebNetSignal.probe
    rw [hu]
    dsimp only
    rw [if_neg (not_not_intro hp), if_neg (by push_neg; exact ⟨ht0, ht1⟩)]
    cases hfr : env.fetchResult <;> rfl
  · intro env2 url2 t2
    unfold WebNetSignal.probe
    cases hpu : env2.parseURL url2 with
    | none => exact Nat.zero_le 1
    | some u2 =>
      dsimp only
      split_ifs
      all_goals
        first
        | exact Nat.zero_le 1
        | cases hfr : env2.fetchResult <;> exact Nat.le_refl 1
  · intro completion rt
    cases completion <;> rfl

/-- C5 witness: the single-HEAD-request theorem applied at a valid url and
timeout. -/
theorem probe_single_head_request_witness :
    (WebNetSignal.probe ⟨fun _ => some ⟨"https:"⟩, .success true, 42⟩
      "https://example.com" 5000).2 =
      [⟨"https://example.com", "HEAD", 5000⟩] :=
  (probe_single_head_request ⟨fun _ => some ⟨"https:"⟩, .success true, 42⟩
    "https://example.com" 5000 ⟨"https:"⟩ rfl (Or.inr rfl) (by norm_num)
    (by norm_num)).1

/-- C6: with valid inputs the web probe races its one fetch against the
AbortController timer and returns exactly one result, never an exception:
on fetch success the result is (response.ok, elapsed, no error), and on any
thrown error - the abort included - it is (false, -1, an error string); the
universal entry's probeWeb behaves the same with the raw error message.
Single settlement and the absence of rejection are expressed by the
embedding itself: both functions are total functions into `ProbeResult`,
not `Except` values. -/
theorem web_probe_settles_once (env : ProbeEnv) (url : String)
    (timeoutMs : ℚ) (u : URLObj) (hu : env.parseURL url = some u)
    (hp : u.protocol = "http:" ∨ u.protocol = "https:")
    (ht0 : 0 < timeoutMs) (ht1 : timeoutMs ≤ 60000) :
    (∀ ok, env.fetchResult = .success ok →
      (WebNetSignal.probe env url timeoutMs).1 = ⟨ok, env.elapsed, none⟩ ∧
      (NetSignalImpl.probeWeb env url timeoutMs).1 = ⟨ok, env.elapsed, none⟩) ∧
    (∀ e, env.fetchResult = .failure e →
      (WebNetSignal.probe env url timeoutMs).1 =
        ⟨false, -1,
         some (if e.name = "AbortError" then "Request timeout"
               else e.message)⟩ ∧
      (NetSignalImpl.probeWeb env url timeoutMs).1 =
        ⟨false, -1, some e.message⟩) := by
  constructor
  · intro ok hfr
    refine ⟨?_, ?_⟩
    · unfold WebNetSignal.probe
      rw [hu]
      dsimp only
      rw [if_neg (not_not_intro hp), if_neg (by push_neg; exact ⟨ht0, ht1⟩),
        hfr]
    · unfold NetSignalImpl.probeWeb
      rw [hfr]
  · intro e hfr
    refine ⟨?_, ?_⟩
    · unfold WebNetSignal.probe
      rw [hu]
      dsimp only
      rw [if_neg (not_not_intro hp), if_neg (by push_neg; exact ⟨ht0, ht1⟩),
        hfr]
    · unfold NetSignalImpl.probeWeb
      rw [hfr]

/-- C6 witness: the settlement theorem applied at a successful fetch. -/
theorem web_probe_settles_once_witness :
    (WebNetSignal.probe ⟨fun _ => some ⟨"https:"⟩, .success true, 42⟩
      "https://example.com" 5000).1 = ⟨true, 42, none⟩ :=
  ((web_probe_settles_once ⟨fun _ => some ⟨"https:"⟩, .success true, 42⟩
    "https://example.com" 5000 ⟨"https:"⟩ rfl (Or.inr rfl) (by norm_num)
    (by norm_num)).1 true rfl).1

/-- C4 counterexample: on the same valid url, same timeout and the same
fetch outcome - an abort - the web-only implementation returns the error
string "Request timeout" while the universal entry's probeWeb returns the
raw error message, so the two probes are not behaviorally equivalent. -/
theorem probeWeb_web_probe_differ :
    (WebNetSignal.probe
      ⟨fun _ => some ⟨"https:"⟩,
       .failure ⟨"AbortError", "The user aborted a request."⟩, 12⟩
      "https://example.com" 5000).1 ≠
    (NetSignalImpl.probeWeb
      ⟨fun _ => some ⟨"https:"⟩,
       .failure ⟨"AbortError", "The user aborted a request."⟩, 12⟩
      "https://example.com" 5000).1 := by
  norm_num [WebNetSignal.probe, NetSignalImpl.probeWeb]
  decide

/-- C4 (amended): the two web probe paths agree whenever the url is valid
HTTP/HTTPS, the timeout is in range, and the fetch outcome is a response or
a non-abort error; they differ on abort errors (mapped to "Request timeout"
only by the web-only implementation) and on invalid inputs (validated only
by the web-only implementation). -/
theorem probeWeb_matches_web_probe_on_valid_nonabort (env : ProbeEnv)
    (url : String) (timeoutMs : ℚ) (u : URLObj)
    (hu : env.parseURL url = some u)
    (hp : u.protocol = "http:" ∨ u.protocol = "https:")
    (ht0 : 0 < timeoutMs) (ht1 : timeoutMs ≤ 60000)
    (hab : ∀ e, env.fetchResult = .failure e → e.name ≠ "AbortError") :
    WebNetSignal.probe env url timeoutMs =
      NetSignalImpl.probeWeb env url timeoutMs := by
  unfold WebNetSignal.probe NetSignalImpl.probeWeb
  rw [hu]
  dsimp only
  rw [if_neg (not_not_intro hp), if_neg (by push_neg; exact ⟨ht0, ht1⟩)]
  cases hfr : env.fetchResult with
  | success ok => rfl
  | failure e =>
    dsimp only
    rw [if_neg (hab e hfr)]

/-- C4 witness: the agreement theorem applied at a successful fetch. -/
theorem probeWeb_matches_web_probe_witness :
    WebNetSignal.probe ⟨fun _ => some ⟨"https:"⟩, .success true, 7⟩
      "https://example.com" 5000 =
    NetSignalImpl.probeWeb ⟨fun _ => some ⟨"https:"⟩, .success true, 7⟩
      "https://example.com" 5000 :=
  probeWeb_matches_web_probe_on_valid_nonabort
    ⟨fun _ => some ⟨"https:"⟩, .success true, 7⟩ "https://example.com" 5000
    ⟨"https:"⟩ rfl (Or.inr rfl) (by norm_num) (by norm_num)
    (fun e he => FetchOutcome.noConfusion he)

/-- C1 counterexample: the native-only implementation's probe, called while
the native module is unavailable, does not resolve to a typed result
object: it throws (the promise rejects with) a NativeModuleError. -/
theorem native_probe_throws_counterexample :
    NativeNetSignal.probe "ios" none (fun _ => some ⟨"https:"⟩)
      "https://example.com" 5000 =
    Except.error (NetSignalError.nativeModuleError "ios") := rfl

/-- C1 (amended): every failure of the universal entry's probe and of the
web implementation's probe is surfaced as a resolved result with reachable
false, responseTime -1 and an error string; the native-only implementation
NativeNetSignal.probe instead surfaces every failure - missing module,
invalid url, invalid protocol, invalid timeout, failed request - by
throwing a typed NetSignalError. -/
theorem probe_error_surfacing (env : ProbeEnv) (url : String)
    (timeoutMs : ℚ) (platform : String)
    (native : Option (Except JSError ProbeResult)) :
    ((env.parseURL url = none ∨
      (∃ u, env.parseURL url = some u ∧
        ¬(u.protocol = "http:" ∨ u.protocol = "https:")) ∨
      timeoutMs ≤ 0 ∨ 60000 < timeoutMs ∨
      (∃ e, env.fetchResult = .failure e)) →
      ∃ m, (WebNetSignal.probe env url timeoutMs).1 = ⟨false, -1, some m⟩) ∧
    (NetSignalImpl.probe false none env url timeoutMs =
      ⟨false, -1, some "Not supported"⟩) ∧
    (∀ e : JSError, NetSignalImpl.probe false (some (Except.error e)) env
      url timeoutMs = ⟨false, -1, some e.message⟩) ∧
    (∀ e : JSError, env.fetchResult = .failure e →
      NetSignalImpl.probe true native env url timeoutMs =
        ⟨false, -1, some e.message⟩) ∧
    ((native = none ∨ env.parseURL url = none ∨
      (∃ u, env.parseURL url = some u ∧
        ¬(u.protocol = "http:" ∨ u.protocol = "https:")) ∨
      timeoutMs ≤ 0 ∨ 60000 < timeoutMs ∨
      (∃ e, native = some (Except.error e))) →
      ∃ err, NativeNetSignal.probe platform native (env.parseURL) url
        timeoutMs = Except.error err) := by
  refine ⟨?_, rfl, fun e => rfl, fun e hfr => ?_, ?_⟩
  · intro hbad
    unfold WebNetSignal.probe
    cases hpu : env.parseURL url with
    | none => exact ⟨"Invalid URL format", rfl⟩
    | some u =>
      by_cases hp : u.protocol = "http:" ∨ u.protocol = "https:"
      · by_cases ht : timeoutMs ≤ 0 ∨ timeoutMs > 60000
        · exact ⟨"Timeout must be between 1ms and 60000ms", by
            dsimp only; rw [if_neg (not_not_intro hp), if_pos ht]⟩
        · cases hfr : env.fetchResult with
          | success ok =>
            exfalso
            rcases hbad with h | ⟨u2, hu2, hp2⟩ | h | h | ⟨e, he⟩
            · rw [hpu] at h; exact Option.noConfusion h
            · rw [hpu] at hu2
              exact hp2 (Option.some_inj.mp hu2 ▸ hp)
            · exact ht (Or.inl h)
            · exact ht (Or.inr h)
            · rw [hfr] at he; exact FetchOutcome.noConfusion he
          | failure e =>
            exact ⟨if e.name = "AbortError" then "Request timeout"
                   else e.message, by
              dsimp only; rw [if_neg (not_not_intro hp), if_neg ht]⟩
      · exact ⟨"Invalid protocol. Only HTTP/HTTPS are supported", by
          dsimp only; rw [if_pos hp]⟩
  · unfold NetSignalImpl.probe NetSignalImpl.probeWeb
    rw [hfr]
    rfl
  · intro hbad
    unfold NativeNetSignal.probe
    cases hn : native with
    | none => exact ⟨NetSignalError.nativeModuleError platform, rfl⟩
    | some nativeOutcome =>
      cases hpu : env.parseURL url with
      | none => exact ⟨NetSignalError.invalidURLError url none, rfl⟩
      | some u =>
        by_cases hp : u.protocol = "http:" ∨ u.protocol = "https:"
        · by_cases ht : timeoutMs ≤ 0 ∨ timeoutMs > 60000
          · exact ⟨NetSignalError.invalidTimeoutError timeoutMs, by
              dsimp only; rw [if_neg (not_not_intro hp), if_pos ht]⟩
          · cases hno : nativeOutcome with
            | ok r =>
              exfalso
              rcases hbad with h | h | ⟨u2, hu2, hp2⟩ | h | h | ⟨e, he⟩
              · rw [hn] at h; exact Option.noConfusion h
              · rw [hpu] at h; exact Option.noConfusion h
              · rw [hpu] at hu2
                exact hp2 (Option.some_inj.mp hu2 ▸ hp)
              · exact ht (Or.inl h)
              · exact ht (Or.inr h)
              · rw [hn, hno] at he
                exact Except.noConfusion (Option.some_inj.mp he)
            | error e =>
              exact ⟨NetSignalError.networkRequestError url e.message, by
                dsimp only; rw [if_neg (not_not_intro hp), if_neg ht]⟩
        · exact ⟨NetSignalError.invalidURLError url
            (some "Only HTTP/HTTPS protocols are supported"), by
            dsimp only; rw [if_pos hp]⟩

/-- C1 witness: the amended theorem applied at an unparsable url (web
implementation resolves the failure). -/
theorem probe_error_surfacing_witness :
    ∃ m, (WebNetSignal.probe ⟨fun _ => none, .success true, 3⟩ "bad url"
      5000).1 = ⟨false, -1, some m⟩ :=
  (probe_error_surfacing ⟨fun _ => none, .success true, 3⟩ "bad url" 5000
    "ios" none).1 (Or.inl rfl)

/-- C7: for every list of at least two latency samples, checkQuality
reports jitter equal to the rounded arithmetic mean of the absolute
differences of consecutive samples, and latency equal to the rounded
arithmetic mean of all samples. -/
theorem checkQuality_latency_jitter (samples : List ℚ) (prev : QualityReport)
    (h2 : 2 ≤ samples.length) :
    (useNetworkQuality.checkQuality samples prev).latency =
      some (jsRound (samples.sum / (samples.length : ℚ))) ∧
    (useNetworkQuality.checkQuality samples prev).jitter =
      some (jsRound
        ((List.zipWith (fun a b => |b - a|) samples samples.tail).sum /
          ((samples.length : ℚ) - 1))) := by
  unfold useNetworkQuality.checkQuality
  rw [if_pos (by omega : 0 < samples.length)]
  constructor
  · simp [foldl_add_eq_sum]
  · simp only [jitterSum_eq_zipWith_sum]
    rw [if_pos (by omega : 1 < samples.length)]

/-- C7 witness: the latency/jitter theorem applied at the sample list
100, 120, 110 (mean 110, consecutive differences 20 and 10, jitter 15). -/
theorem checkQuality_latency_jitter_witness :
    (useNetworkQuality.checkQuality [100, 120, 110]
      ⟨.unknown, none, none⟩).latency = some 110 ∧
    (useNetworkQuality.checkQuality [100, 120, 110]
      ⟨.unknown, none, none⟩).jitter = some 15 := by
  have h := checkQuality_latency_jitter [100, 120, 110]
    ⟨.unknown, none, none⟩ (by decide)
  refine ⟨?_, ?_⟩
  · rw [h.1]; norm_num [jsRound]
  · rw [h.2]; norm_num [jsRound]
